import Mathlib

/-!
# Verification of the rcDesigner RC section-check engine

Shallow embedding of the pure calculation functions of the repository
(`gptils.py`, `gptils_2.py`, `utils.py`, and the inline crack-width block of
the report generators) over the real numbers.  Python floats are modelled by
`ℝ`; a `raise`/`return None` outcome is modelled by `Option.none`; a Python
tuple return is modelled by a product type.  Local variables of the Python
functions (quadratic coefficients, discriminants) are hoisted into named
top-level definitions so that theorems can refer to them.
-/

open scoped Classical

noncomputable section

/-! ## Flexure: required steel area, `gptils.py` lines 3-39.

`required_rebar_area(Mu, b, d, fck, fy, phi=0.90)` solves
`K·As² - B·As + C = 0` with `K = fy²/(2·0.85·fck·b)`, `B = fy·d`,
`C = Mu·1e6/phi`, raising `ValueError` (here: `none`) when the discriminant
is negative or when the selected root `min(As1, As2)` is `≤ 0`.
`gptils_2.py` lines 37-48 implement the same mathematics, returning `None`
in place of the exceptions, so this single definition embeds both. -/

def gK (b fck fy : ℝ) : ℝ := fy ^ 2 / (2 * 0.85 * fck * b)

def gB (d fy : ℝ) : ℝ := fy * d

def gC (Mu phi : ℝ) : ℝ := Mu * 1e6 / phi

def gDisc (Mu b d fck fy phi : ℝ) : ℝ :=
  (gB d fy) ^ 2 - 4 * gK b fck fy * gC Mu phi

def required_rebar_area (Mu b d fck fy phi : ℝ) : Option ℝ :=
  let discriminant := gDisc Mu b d fck fy phi
  if discriminant < 0 then none
  else
    let As1 := (gB d fy + Real.sqrt discriminant) / (2 * gK b fck fy)
    let As2 := (gB d fy - Real.sqrt discriminant) / (2 * gK b fck fy)
    let As_req := min As1 As2
    if As_req ≤ 0 then none else some As_req

/-! ## Flexure: required steel area, `utils.py` lines 10-43.

`solve_rebar_area_for_flexure(Mu, b, d, fck, fy, phi_c=0.65, phi_s=0.90)`
solves `A·As² + B·As + C = 0` with
`A = (β·φs²·fy²)/(α·φc·0.85·fck·b)` (α = 0.800, β = 0.400),
`B = -(φs·fy·d)`, `C = Mu·1e6`; it returns `None` when the discriminant is
`≤ 0` and otherwise returns `max(As1, As2)`. -/

def uA (b fck fy phi_c phi_s : ℝ) : ℝ :=
  (0.400 * phi_s ^ 2 * fy ^ 2) / (0.800 * phi_c * 0.85 * fck * b)

def uB (d fy phi_s : ℝ) : ℝ := -(phi_s * fy * d)

def uC (Mu : ℝ) : ℝ := Mu * 1e6

def uDisc (Mu b d fck fy phi_c phi_s : ℝ) : ℝ :=
  (uB d fy phi_s) ^ 2 - 4 * uA b fck fy phi_c phi_s * uC Mu

def solve_rebar_area_for_flexure (Mu b d fck fy phi_c phi_s : ℝ) : Option ℝ :=
  let discriminant := uDisc Mu b d fck fy phi_c phi_s
  if discriminant ≤ 0 then none
  else
    let As1 := (-uB d fy phi_s + Real.sqrt discriminant) /
      (2 * uA b fck fy phi_c phi_s)
    let As2 := (-uB d fy phi_s - Real.sqrt discriminant) /
      (2 * uA b fck fy phi_c phi_s)
    some (max As1 As2)

/-! ## Min/max reinforcement, `utils.py` lines 63-113 and `gptils.py`
lines 42-78 (identical logic).

Optional Python arguments `As_req=None`, `As_use=None` are modelled by
`Option ℝ`.  The Python idiom `As_min = 0.0 if not filtered else
max(filtered)` is captured by `pymax`: Python's `max` over a nonempty list
is a fold of binary `max` over head and tail, and the empty list yields
`0.0`. -/

def pymax (l : List ℝ) : ℝ :=
  match l with
  | [] => 0.0
  | x :: xs => xs.foldl max x

def calc_min_max_rebar (b d fck fy : ℝ) (As_req As_use : Option ℝ) : ℝ × ℝ :=
  let As_min_a := 0.25 * Real.sqrt fck / fy * b * d
  let As_min_b := 1.4 / fy * b * d
  let As_min_c := match As_req with
    | some r => 4.0 / 3.0 * r
    | none => 0.0
  let candidates := [As_min_a, As_min_b, As_min_c]
  let filtered := match As_use with
    | some u => candidates.filter (fun v => decide (v ≤ u))
    | none => candidates
  (pymax filtered, 0.04 * b * d)

/-! ## Min/max reinforcement, `gptils_2.py` lines 50-65.

Same formulas, but the presence tests are Python *truthiness* tests
(`As_min_c=(4.0/3.0)*As_req if As_req else 0.0` and `if As_use:`), so a
supplied value of `0.0` behaves like an absent one. -/

def calc_min_max_rebar_2 (b d fck fy : ℝ) (As_req As_use : Option ℝ) :
    ℝ × ℝ :=
  let As_min_a := 0.25 * Real.sqrt fck / fy * b * d
  let As_min_b := 1.4 / fy * b * d
  let As_min_c := match As_req with
    | some r => if r = 0 then (0.0 : ℝ) else 4.0 / 3.0 * r
    | none => (0.0 : ℝ)
  let candidates := [As_min_a, As_min_b, As_min_c]
  let filtered := match As_use with
    | some u =>
        if u = 0 then candidates
        else candidates.filter (fun v => decide (v ≤ u))
    | none => candidates
  (pymax filtered, 0.04 * b * d)

/-- The min/max-steel rule exactly as the specification states it
(spec §4.1 `min_max_steel`): candidate minimums `0.25·√fck/fy·b·d`,
`(1.4/fy)·b·d`, and `(4/3)·As_req` — the last only when `As_req` is
supplied; when `As_use` is supplied, candidates greater than `As_use` are
discarded; `As_min` is the maximum of the surviving candidates, or `0` when
none survives; `As_max = 0.04·b·d` unconditionally.  Used as the
specification side of the refinement comparison for claim C5. -/
def min_max_steel_spec (b d fck fy : ℝ) (As_req As_use : Option ℝ) :
    ℝ × ℝ :=
  let cands := [0.25 * Real.sqrt fck / fy * b * d, 1.4 / fy * b * d] ++
    (match As_req with
      | some r => [4.0 / 3.0 * r]
      | none => [])
  let surviving := match As_use with
    | some u => cands.filter (fun v => decide (v ≤ u))
    | none => cands
  (pymax surviving, 0.04 * b * d)

/-! ## Neutral axis depth, `gptils.py` lines 81-95, `utils.py` lines
115-134, `gptils_2.py` lines 67-73 (all identical).

Returns the tuple `(c, cmax, c_ok)`; the boolean `c_ok = (c <= cmax)` is
modelled as the proposition `c ≤ cmax`. -/

def check_neutral_axis_depth (As_use b d fck fy phi_c phi_s : ℝ) :
    ℝ × ℝ × Prop :=
  let alpha := (0.80 : ℝ)
  let c := phi_s * As_use * fy / (alpha * phi_c * 0.85 * fck * b)
  let cmax := 0.4 * d
  (c, cmax, c ≤ cmax)

/-! ## Tensile strain, `gptils.py` lines 98-104, `utils.py` lines 136-142,
`gptils_2.py` lines 75-77 (identical).

Python evaluates `(d - c) / c * eps_cu` and raises `ZeroDivisionError`
when `c = 0`; the exceptional outcome is modelled as `none`. -/

def compute_tensile_strain (d c eps_cu : ℝ) : Option ℝ :=
  if c = 0 then none else some ((d - c) / c * eps_cu)

/-! ## Simplified shear check, `utils.py` lines 45-61 and `gptils.py`
lines 107-118 (identical).

Returns `(True, Vc, 0.0)` when `Vu ≤ Vc` and `(True, Vc, Vu - Vc)`
otherwise, with `Vc = 0.53·√fck·b·d·1e-3` (kN); the first component is the
literal boolean `True` in both branches. -/

def calc_shear_check (Vu b d fck fy phi_c phi_s : ℝ) : Bool × ℝ × ℝ :=
  let Vc := 0.53 * Real.sqrt fck * b * d * 1e-3
  if Vu ≤ Vc then (true, Vc, 0.0) else (true, Vc, Vu - Vc)

/-! ## Design flexural strength, `gptils.py` lines 120-141.

`calculate_design_flexural_strength(As, b, d, c, fck, fy, phi=0.90,
beta=0.4)`: the parameter `c` is immediately overwritten by `c = a/beta`;
the function returns `(Mn, phi_Mn)` with `Mn` in N·mm and
`phi_Mn = phi·Mn/1e6` in kN·m.  `gptils_2.py` lines 79-86 are identical
except that the first component is returned as `Mn/1e6`. -/

def calculate_design_flexural_strength (As b d c fck fy phi beta : ℝ) :
    ℝ × ℝ :=
  let a := As * fy / (0.85 * fck * b)
  let c := a / beta
  let Mn := As * fy * (d - beta * c)
  let Mn_kNm := Mn / 1e6
  (Mn, phi * Mn_kNm)

/-! ## Shear capacity, `gptils.py` lines 143-148 and `gptils_2.py`
lines 88-94 (identical).

Returns `(Vcd, Vcd_min, Vcd >= Vu*1e3)`; Python's `fck**(1/3)` is the real
power `fck ^ (1/3 : ℝ)` and `min(1 + math.sqrt(200/d), 2)` is the binary
minimum.  The pass boolean is modelled as the proposition `Vcd ≥ Vu·1e3`. -/

def shear_check (Vu b d fck phi_c : ℝ) : ℝ × ℝ × Prop :=
  let k := min (1 + Real.sqrt (200 / d)) 2
  let Vcd := 0.85 * phi_c * k * (0.17 * fck ^ ((1 : ℝ) / 3)) * b * d
  let Vcd_min := 0.4 * phi_c * (0.63 * Real.sqrt fck) * b * d
  (Vcd, Vcd_min, Vcd ≥ Vu * 1e3)

/-! ## Indirect crack width, inline block of `generate_rc_report`:
`rcT-beamDesigner(gpt)_2.py` lines 126-131 and
`rcT-beamDesigner(gpt).py` lines 122-124.

`w_calc = (d - c) * eps_s * 0.6`, `w_allow = 0.30`,
`w_ok = (w_calc <= w_allow)`; packaged under the specification's name
`crack_width_estimate`, with the pass boolean modelled as a proposition. -/

def crack_width_estimate (d c eps_s : ℝ) : ℝ × Prop :=
  let w_calc := (d - c) * eps_s * 0.6
  let w_allow := (0.3 : ℝ)
  (w_calc, w_calc ≤ w_allow)

/-! ## Spec §8 fixture values

The spec's known fixture is `b=1000, d=250, fck=40, fy=500,
Mu=242.015 kN·m (= 48403/200), φ=0.90` (strength-reduction variant:
`φ_c=0.65, φ_s=0.90`).  `As_fixture_g` is the root selected by the
`gptils.py`/`gptils_2.py` formulation there, `As_fixture_u` the root
selected by the `utils.py` formulation. -/

def As_fixture_g : ℝ :=
  (gB 250 500 - Real.sqrt (gDisc (48403/200) 1000 250 40 500 (9/10))) /
    (2 * gK 1000 40 500)

def As_fixture_u : ℝ :=
  (-uB 250 500 (9/10) +
      Real.sqrt (uDisc (48403/200) 1000 250 40 500 (13/20) (9/10))) /
    (2 * uA 1000 40 500 (13/20) (9/10))

/-! ## Helper lemmas -/

lemma sqrt_eq_of_eq_sq {x a : ℝ} (ha : 0 ≤ a) (h : x = a ^ 2) :
    Real.sqrt x = a := by
  rw [h, Real.sqrt_sq ha]

lemma sqrt_twentyfive : Real.sqrt 25 = 5 :=
  sqrt_eq_of_eq_sq (by norm_num) (by norm_num)

/-! ## Claim C6: tensile strain and the `c = 0` signal -/

/-- C6: `tensile_strain(d, c)` returns `((d-c)/c)·eps_cu` for every `c ≠ 0`,
and for `c = 0` the result is the distinct signalled `DivisionUndefined`
outcome (Python's `ZeroDivisionError`, modelled `none`) rather than a value
such as `NaN` or a silent default. -/
theorem claim_C6_strain : ∀ d c e : ℝ,
    (c ≠ 0 → compute_tensile_strain d c e = some ((d - c) / c * e)) ∧
    (c = 0 → compute_tensile_strain d c e = none) := by
  intro d c e
  constructor
  · intro hc
    simp [compute_tensile_strain, hc]
  · intro hc
    simp [compute_tensile_strain, hc]

/-- C6 witness: concrete evaluations at `c = 50` and `c = 0`. -/
theorem claim_C6_strain_witness :
    compute_tensile_strain 250 50 0.0033 = some 0.0132 ∧
    compute_tensile_strain 250 0 0.0033 = none := by
  constructor
  · rw [(claim_C6_strain 250 50 0.0033).1 (by norm_num)]
    norm_num
  · exact (claim_C6_strain 250 0 0.0033).2 rfl

/-! ## Claim C7: the neutral axis depth is monotone in `As_use` -/

/-- C7: for fixed `b, d, fck, fy > 0` and positive `phi_s, phi_c`, the
neutral-axis depth `c` returned by `check_neutral_axis_depth` is monotone
nondecreasing in `As_use`. -/
theorem claim_C7_monotone (b d fck fy phi_c phi_s As1 As2 : ℝ) (hb : 0 < b)
    (hfck : 0 < fck) (hfy : 0 < fy) (hpc : 0 < phi_c) (hps : 0 < phi_s)
    (h : As1 ≤ As2) :
    (check_neutral_axis_depth As1 b d fck fy phi_c phi_s).1 ≤
      (check_neutral_axis_depth As2 b d fck fy phi_c phi_s).1 := by
  simp only [check_neutral_axis_depth]
  have hden : (0 : ℝ) < 0.80 * phi_c * 0.85 * fck * b := by positivity
  have hnum : phi_s * As1 * fy ≤ phi_s * As2 * fy :=
    mul_le_mul_of_nonneg_right (mul_le_mul_of_nonneg_left h hps.le) hfy.le
  exact (div_le_div_iff_of_pos_right hden).mpr hnum

/-- C7 witness: concrete monotone instance. -/
theorem claim_C7_monotone_witness :
    (check_neutral_axis_depth 1000 300 500 24 400 0.65 0.9).1 ≤
      (check_neutral_axis_depth 2000 300 500 24 400 0.65 0.9).1 :=
  claim_C7_monotone 300 500 24 400 0.65 0.9 1000 2000 (by norm_num)
    (by norm_num) (by norm_num) (by norm_num) (by norm_num) (by norm_num)

/-! ## Claim C8: `shear_check` with `Vu = 0` passes -/

/-- C8: over the engine's documented input domain (positive effective depth,
nonnegative width, concrete strength and strength-reduction factor),
`shear_check` called with `Vu = 0` returns `pass = True`, i.e. the
proposition `Vcd ≥ 0·1e3` holds. -/
theorem claim_C8_zero_shear (b d fck phi_c : ℝ) (hd : 0 < d) (hb : 0 ≤ b)
    (hfck : 0 ≤ fck) (hpc : 0 ≤ phi_c) :
    (shear_check 0 b d fck phi_c).2.2 := by
  simp only [shear_check]
  have hk : (0 : ℝ) ≤ min (1 + Real.sqrt (200 / d)) 2 :=
    le_min (by positivity) (by norm_num)
  have hr : (0 : ℝ) ≤ fck ^ ((1 : ℝ) / 3) := Real.rpow_nonneg hfck _
  have h1 : (0 : ℝ) ≤ 0.85 * phi_c * min (1 + Real.sqrt (200 / d)) 2 *
      (0.17 * fck ^ ((1 : ℝ) / 3)) * b * d :=
    mul_nonneg (mul_nonneg (mul_nonneg (mul_nonneg
      (mul_nonneg (by norm_num) hpc) hk) (mul_nonneg (by norm_num) hr)) hb)
      hd.le
  simpa using h1

/-- C8 witness: concrete section passing the zero-demand shear check. -/
theorem claim_C8_zero_shear_witness :
    (shear_check 0 1000 200 27 0.65).2.2 :=
  claim_C8_zero_shear 1000 200 27 0.65 (by norm_num) (by norm_num)
    (by norm_num) (by norm_num)

/-! ## Claim C9: crack width estimate -/

/-- C9: `crack_width_estimate` computes `w = (d-c)·eps_s·0.6` with pass
criterion `w ≤ 0.3` mm, and at `d = 250`, `c = 50`, `eps_s = 0.0072` it
returns `w = 0.864` mm with `pass = False`. -/
theorem claim_C9_crack_width :
    (∀ d c e : ℝ, (crack_width_estimate d c e).1 = (d - c) * e * 0.6 ∧
      ((crack_width_estimate d c e).2 ↔ (d - c) * e * 0.6 ≤ 0.3)) ∧
    (crack_width_estimate 250 50 0.0072).1 = 0.864 ∧
    ¬ (crack_width_estimate 250 50 0.0072).2 := by
  refine ⟨fun d c e => ⟨rfl, Iff.rfl⟩, by norm_num [crack_width_estimate], ?_⟩
  show ¬ ((250 - 50 : ℝ) * 0.0072 * 0.6 ≤ 0.3)
  norm_num

/-! ## Claim C10: the simplified shear strategy never fails -/

/-- C10: for any `Vu` and positive `b, d, fck`, `calc_shear_check` returns
`True` as its pass flag, `Vc = 0.53·√fck·b·d·1e-3`, and `Vs = 0` when
`Vu ≤ Vc`, `Vs = Vu - Vc` otherwise. -/
theorem claim_C10_simplified_shear (Vu b d fck fy phi_c phi_s : ℝ)
    (hb : 0 < b) (hd : 0 < d) (hfck : 0 < fck) :
    (calc_shear_check Vu b d fck fy phi_c phi_s).1 = true ∧
    (calc_shear_check Vu b d fck fy phi_c phi_s).2.1 =
      0.53 * Real.sqrt fck * b * d * 1e-3 ∧
    (Vu ≤ 0.53 * Real.sqrt fck * b * d * 1e-3 →
      (calc_shear_check Vu b d fck fy phi_c phi_s).2.2 = 0) ∧
    (¬ Vu ≤ 0.53 * Real.sqrt fck * b * d * 1e-3 →
      (calc_shear_check Vu b d fck fy phi_c phi_s).2.2 =
        Vu - 0.53 * Real.sqrt fck * b * d * 1e-3) := by
  simp only [calc_shear_check]
  by_cases h : Vu ≤ 0.53 * Real.sqrt fck * b * d * 1e-3
  · simp [h]
    norm_num
  · simp [h]

/-! ## Claim C5: min/max reinforcement filtering -/

lemma pymax_cons_zero (a bb : ℝ) (hbb : 0 ≤ bb) :
    pymax [a, bb, (0.0 : ℝ)] = pymax [a, bb] := by
  have h00 : (0.0 : ℝ) = 0 := by norm_num
  simp only [pymax, List.foldl, h00]
  exact max_eq_left (hbb.trans (le_max_right a bb))

lemma pymax_filter_zero (a bb u : ℝ) (ha : 0 ≤ a) (hbb : 0 ≤ bb) :
    pymax (List.filter (fun v => decide (v ≤ u)) [a, bb, (0.0 : ℝ)]) =
    pymax (List.filter (fun v => decide (v ≤ u)) [a, bb]) := by
  have h00 : (0.0 : ℝ) = 0 := by norm_num
  rw [h00]
  by_cases hau : a ≤ u <;> by_cases hbu : bb ≤ u <;>
      by_cases h0 : (0 : ℝ) ≤ u <;>
    simp [List.filter, hau, hbu, h0, pymax] <;>
    first
      | rfl
      | linarith
      | exact Or.inr hbb

/-- C5 counterexample: at `b=1000, d=100, fck=25, fy=500`, `As_req` absent
and `As_use = 0` (exactly the call `generate_rc_report` makes when the
flexural quadratic has no solution), the `gptils_2.py` variant skips the
filtering (Python truthiness of `0.0`) and returns `As_min = 280`, while
the claim's stated rule (discard candidates greater than `As_use`) yields
`As_min = 0`. -/
theorem claim_C5_counterexample :
    (calc_min_max_rebar_2 1000 100 25 500 none (some 0)).1 = 280 ∧
    (min_max_steel_spec 1000 100 25 500 none (some 0)).1 = 0 ∧
    (280 : ℝ) ≠ 0 := by
  refine ⟨?_, ?_, by norm_num⟩
  · simp only [calc_min_max_rebar_2, if_pos rfl, sqrt_twentyfive, pymax,
      List.foldl]
    norm_num
  · simp only [min_max_steel_spec, sqrt_twentyfive, List.nil_append,
      List.cons_append]
    have h1 : ¬ (0.25 * (5 : ℝ) / 500 * 1000 * 100 ≤ 0) := by norm_num
    have h2 : ¬ ((1.4 : ℝ) / 500 * 1000 * 100 ≤ 0) := by norm_num
    simp [List.filter, h1, h2, pymax]
    norm_num

/-- C5 amended: the `utils.py`/`gptils.py` variant of `calc_min_max_rebar`
behaves exactly as the claim states (for positive `b, d, fy`), and the
`gptils_2.py` variant agrees with that rule except when `As_use` is
supplied as `0`, in which case its Python truthiness test skips the
filtering step altogether. -/
theorem claim_C5_amended :
    (∀ (b d fck fy : ℝ) (As_req As_use : Option ℝ), 0 < b → 0 < d → 0 < fy →
      calc_min_max_rebar b d fck fy As_req As_use =
        min_max_steel_spec b d fck fy As_req As_use) ∧
    (∀ (b d fck fy : ℝ) (As_req As_use : Option ℝ), 0 < b → 0 < d → 0 < fy →
      As_use ≠ some 0 →
      calc_min_max_rebar_2 b d fck fy As_req As_use =
        min_max_steel_spec b d fck fy As_req As_use) := by
  constructor
  · intro b d fck fy As_req As_use hb hd hfy
    have ha : (0 : ℝ) ≤ 0.25 * Real.sqrt fck / fy * b * d := by positivity
    have hbb : (0 : ℝ) ≤ 1.4 / fy * b * d := by positivity
    cases As_req with
    | some r =>
      cases As_use with
      | some u => simp [calc_min_max_rebar, min_max_steel_spec]
      | none => simp [calc_min_max_rebar, min_max_steel_spec]
    | none =>
      cases As_use with
      | some u =>
        simp only [calc_min_max_rebar, min_max_steel_spec, List.nil_append,
          List.cons_append, List.append_nil]
        congr 1
        exact pymax_filter_zero _ _ u ha hbb
      | none =>
        simp only [calc_min_max_rebar, min_max_steel_spec, List.nil_append,
          List.cons_append, List.append_nil]
        congr 1
        exact pymax_cons_zero _ _ hbb
  · intro b d fck fy As_req As_use hb hd hfy hne
    have ha : (0 : ℝ) ≤ 0.25 * Real.sqrt fck / fy * b * d := by positivity
    have hbb : (0 : ℝ) ≤ 1.4 / fy * b * d := by positivity
    cases As_req with
    | some r =>
      by_cases hr : r = 0
      · subst hr
        cases As_use with
        | some u =>
          have hu : u ≠ 0 := fun h => hne (by rw [h])
          simp only [calc_min_max_rebar_2, min_max_steel_spec, if_neg hu,
            List.nil_append, List.cons_append, List.append_nil]
          norm_num
        | none =>
          simp only [calc_min_max_rebar_2, min_max_steel_spec,
            List.nil_append, List.cons_append, List.append_nil]
          norm_num
      · cases As_use with
        | some u =>
          have hu : u ≠ 0 := fun h => hne (by rw [h])
          simp only [calc_min_max_rebar_2, min_max_steel_spec, if_neg hu,
            if_neg hr, List.nil_append, List.cons_append, List.append_nil]
        | none =>
          simp only [calc_min_max_rebar_2, min_max_steel_spec, if_neg hr,
            List.nil_append, List.cons_append, List.append_nil]
    | none =>
      cases As_use with
      | some u =>
        have hu : u ≠ 0 := fun h => hne (by rw [h])
        simp only [calc_min_max_rebar_2, min_max_steel_spec, if_neg hu,
          List.nil_append, List.cons_append, List.append_nil]
        congr 1
        exact pymax_filter_zero _ _ u ha hbb
      | none =>
        simp only [calc_min_max_rebar_2, min_max_steel_spec,
          List.nil_append, List.cons_append, List.append_nil]
        congr 1
        exact pymax_cons_zero _ _ hbb

/-- C5 witness: with a nonzero supplied `As_use` the `gptils_2.py` variant
agrees with the claim's rule at a concrete call. -/
theorem claim_C5_amended_witness :
    calc_min_max_rebar_2 1000 100 25 500 none (some 10000) =
      min_max_steel_spec 1000 100 25 500 none (some 10000) :=
  claim_C5_amended.2 1000 100 25 500 none (some 10000) (by norm_num)
    (by norm_num) (by norm_num)
    (by simp only [ne_eq, Option.some.injEq]; norm_num)

/-! ## Quadratic-solver evaluation lemmas -/

/-- When the discriminant is nonnegative and the smaller root is positive,
`required_rebar_area` returns the smaller root `(B - √disc)/(2K)`. -/
lemma required_rebar_area_eval (Mu b d fck fy phi : ℝ)
    (hdisc : 0 ≤ gDisc Mu b d fck fy phi) (hK : 0 < gK b fck fy)
    (hroot : Real.sqrt (gDisc Mu b d fck fy phi) < gB d fy) :
    required_rebar_area Mu b d fck fy phi =
      some ((gB d fy - Real.sqrt (gDisc Mu b d fck fy phi)) /
        (2 * gK b fck fy)) := by
  have h2K : (0 : ℝ) < 2 * gK b fck fy := by linarith
  have hmin :
      (gB d fy - Real.sqrt (gDisc Mu b d fck fy phi)) / (2 * gK b fck fy) ≤
      (gB d fy + Real.sqrt (gDisc Mu b d fck fy phi)) / (2 * gK b fck fy) :=
    (div_le_div_iff_of_pos_right h2K).mpr
      (by linarith [Real.sqrt_nonneg (gDisc Mu b d fck fy phi)])
  have hpos : 0 <
      (gB d fy - Real.sqrt (gDisc Mu b d fck fy phi)) / (2 * gK b fck fy) :=
    div_pos (by linarith) h2K
  simp only [required_rebar_area]
  rw [if_neg (not_lt.mpr hdisc), min_eq_right hmin, if_neg (not_le.mpr hpos)]

/-- When the discriminant is positive, `solve_rebar_area_for_flexure`
returns the larger root `(-B + √disc)/(2A)`. -/
lemma solve_rebar_eval (Mu b d fck fy phi_c phi_s : ℝ)
    (hdisc : 0 < uDisc Mu b d fck fy phi_c phi_s)
    (hA : 0 < uA b fck fy phi_c phi_s) :
    solve_rebar_area_for_flexure Mu b d fck fy phi_c phi_s =
      some ((-uB d fy phi_s +
          Real.sqrt (uDisc Mu b d fck fy phi_c phi_s)) /
        (2 * uA b fck fy phi_c phi_s)) := by
  have h2A : (0 : ℝ) < 2 * uA b fck fy phi_c phi_s := by linarith
  have hmax :
      (-uB d fy phi_s - Real.sqrt (uDisc Mu b d fck fy phi_c phi_s)) /
        (2 * uA b fck fy phi_c phi_s) ≤
      (-uB d fy phi_s + Real.sqrt (uDisc Mu b d fck fy phi_c phi_s)) /
        (2 * uA b fck fy phi_c phi_s) :=
    (div_le_div_iff_of_pos_right h2A).mpr
      (by linarith [Real.sqrt_nonneg (uDisc Mu b d fck fy phi_c phi_s)])
  simp only [solve_rebar_area_for_flexure]
  rw [if_neg (not_le.mpr hdisc), max_eq_left hmax]

/-- `(B - s)/(2K)` is a root of `K·x² - B·x + C` whenever `s² = B² - 4KC`. -/
lemma quad_root_sub (K B C s : ℝ) (hK : K ≠ 0)
    (hs : s ^ 2 = B ^ 2 - 4 * K * C) :
    K * ((B - s) / (2 * K)) ^ 2 - B * ((B - s) / (2 * K)) + C = 0 := by
  field_simp
  nlinarith [hs]

/-! ## Claim C1: root selection

The `gptils.py`/`gptils_2.py` formulation returns `min(As1, As2)` (the
smaller root; see `required_rebar_area` and its use in
`required_rebar_area_eval`), but the `utils.py` strength-reduction-factored
formulation returns `max(As1, As2)` — the larger, over-reinforced root —
even when a smaller positive root exists. -/

/-- C1 (failing-input evidence): at `Mu = 99229/16200 kN·m ≈ 6.1253`,
`b=1000, d=250, fck=40, fy=500, φ_c=0.65, φ_s=0.9` the discriminant is the
perfect square `112000²`; `solve_rebar_area_for_flexure` returns
`1984580/81 ≈ 24501.0` although `4420/81 ≈ 54.6` is a smaller positive root
of the same quadratic `A·x² + B·x + C`. -/
theorem claim_C1_root_selection :
    solve_rebar_area_for_flexure (99229/16200) 1000 250 40 500 (13/20)
        (9/10) = some (1984580/81) ∧
    (0 : ℝ) < 4420/81 ∧ (4420/81 : ℝ) < 1984580/81 ∧
    uA 1000 40 500 (13/20) (9/10) * (4420/81) ^ 2 +
      uB 250 500 (9/10) * (4420/81) + uC (99229/16200) = 0 ∧
    uA 1000 40 500 (13/20) (9/10) * (1984580/81) ^ 2 +
      uB 250 500 (9/10) * (1984580/81) + uC (99229/16200) = 0 := by
  have hd : uDisc (99229/16200) 1000 250 40 500 (13/20) (9/10) =
      12544000000 := by
    unfold uDisc uA uB uC
    norm_num
  have hA : (0 : ℝ) < uA 1000 40 500 (13/20) (9/10) := by
    unfold uA
    norm_num
  refine ⟨?_, by norm_num, by norm_num, ?_, ?_⟩
  · rw [solve_rebar_eval _ _ _ _ _ _ _ (by rw [hd]; norm_num) hA, hd,
      sqrt_eq_of_eq_sq (by norm_num : (0:ℝ) ≤ 112000) (by norm_num)]
    unfold uA uB
    norm_num
  · unfold uA uB uC
    norm_num
  · unfold uA uB uC
    norm_num

/-! ## Claim C4: the spec fixture -/

lemma gDisc_fixture :
    gDisc (48403/200) 1000 250 40 500 (9/10) = 1785587500000/153 := by
  unfold gDisc gK gB gC
  norm_num

lemma uDisc_fixture :
    uDisc (48403/200) 1000 250 40 500 (13/20) (9/10) =
      1816870500000/221 := by
  unfold uDisc uA uB uC
  norm_num

lemma As_fixture_g_eq :
    required_rebar_area (48403/200) 1000 250 40 500 (9/10) =
      some As_fixture_g := by
  unfold As_fixture_g
  refine required_rebar_area_eval _ _ _ _ _ _ (by rw [gDisc_fixture]; norm_num)
    (by unfold gK; norm_num) ?_
  rw [gDisc_fixture]
  have h : Real.sqrt (1785587500000/153) < 125000 :=
    (Real.sqrt_lt' (by norm_num)).mpr (by norm_num)
  unfold gB
  linarith

lemma As_fixture_g_bounds : 2307 < As_fixture_g ∧ As_fixture_g < 2308 := by
  have h2k : (2 * gK 1000 40 500 : ℝ) = 125/17 := by
    unfold gK
    norm_num
  have hBv : (gB 250 500 : ℝ) = 125000 := by
    unfold gB
    norm_num
  have hs_lb : (1836500/17 : ℝ) < Real.sqrt (1785587500000/153) :=
    (Real.lt_sqrt (by norm_num)).mpr (by norm_num)
  have hs_ub : Real.sqrt (1785587500000/153) < 1836625/17 :=
    (Real.sqrt_lt' (by norm_num)).mpr (by norm_num)
  unfold As_fixture_g
  rw [gDisc_fixture, h2k, hBv]
  constructor
  · rw [lt_div_iff₀ (by norm_num : (0:ℝ) < 125/17)]
    linarith
  · rw [div_lt_iff₀ (by norm_num : (0:ℝ) < 125/17)]
    linarith

lemma As_fixture_u_eq :
    solve_rebar_area_for_flexure (48403/200) 1000 250 40 500 (13/20)
      (9/10) = some As_fixture_u := by
  unfold As_fixture_u
  exact solve_rebar_eval _ _ _ _ _ _ _ (by rw [uDisc_fixture]; norm_num)
    (by unfold uA; norm_num)

lemma As_fixture_u_bounds :
    22173 < As_fixture_u ∧ As_fixture_u < 22174 := by
  have h2a : (2 * uA 1000 40 500 (13/20) (9/10) : ℝ) = 2025/221 := by
    unfold uA
    norm_num
  have hBu : (-uB 250 500 (9/10) : ℝ) = 112500 := by
    unfold uB
    norm_num
  have hs_lb : (20037825/221 : ℝ) < Real.sqrt (1816870500000/221) :=
    (Real.lt_sqrt (by norm_num)).mpr (by norm_num)
  have hs_ub : Real.sqrt (1816870500000/221) < 20039850/221 :=
    (Real.sqrt_lt' (by norm_num)).mpr (by norm_num)
  unfold As_fixture_u
  rw [uDisc_fixture, h2a, hBu]
  constructor
  · rw [lt_div_iff₀ (by norm_num : (0:ℝ) < 2025/221)]
    linarith
  · rw [div_lt_iff₀ (by norm_num : (0:ℝ) < 2025/221)]
    linarith

/-- C4 counterexample: at the spec fixture the `gptils.py` formulation
returns `As_fixture_g ≈ 2307.9 mm²`, which does not lie in the claimed
range 2382–2420 mm². -/
theorem claim_C4_counterexample :
    required_rebar_area (48403/200) 1000 250 40 500 (9/10) =
      some As_fixture_g ∧
    As_fixture_g < 2382 ∧
    ¬ (2382 ≤ As_fixture_g ∧ As_fixture_g ≤ 2420) := by
  have hub := As_fixture_g_bounds.2
  exact ⟨As_fixture_g_eq, by linarith, fun h => by linarith [h.1]⟩

/-- C4 amended: at the fixture both formulation variants return
deterministic values, the `gptils.py`/`gptils_2.py` variant a value in
(2307, 2308) mm² and the `utils.py` variant a value in (22173, 22174) mm²;
neither lies in 2382–2420 mm². -/
theorem claim_C4_amended :
    required_rebar_area (48403/200) 1000 250 40 500 (9/10) =
      some As_fixture_g ∧
    2307 < As_fixture_g ∧ As_fixture_g < 2308 ∧
    solve_rebar_area_for_flexure (48403/200) 1000 250 40 500 (13/20)
      (9/10) = some As_fixture_u ∧
    22173 < As_fixture_u ∧ As_fixture_u < 22174 :=
  ⟨As_fixture_g_eq, As_fixture_g_bounds.1, As_fixture_g_bounds.2,
    As_fixture_u_eq, As_fixture_u_bounds.1, As_fixture_u_bounds.2⟩

/-! ## Claim C2: solve-then-evaluate round trip

`required_rebar_area` solves `Mu/φ = As·fy·(d - a/2)`, but
`calculate_design_flexural_strength` evaluates `Mn = As·fy·(d - β·(a/β))
= As·fy·(d - a)`, so the round trip reproduces `Mu/φ - K·As²`, not `Mu/φ`. -/

/-- Perfect-square fixture for C2: `Mu = 3051/400000 kN·m`, `b=1000, d=10,
fck=17, fy=170, φ=0.9` gives `K=1, B=1700, C=8475`, discriminant
`1690²`, and the exact smaller root `As_req = 5`. -/
lemma rra_c2_fixture :
    required_rebar_area (3051/400000) 1000 10 17 170 (9/10) = some 5 := by
  have hd5 : gDisc (3051/400000) 1000 10 17 170 (9/10) = 2856100 := by
    unfold gDisc gK gB gC
    norm_num
  have hs5 : Real.sqrt (gDisc (3051/400000) 1000 10 17 170 (9/10)) = 1690 := by
    rw [hd5]
    exact sqrt_eq_of_eq_sq (by norm_num) (by norm_num)
  rw [required_rebar_area_eval _ _ _ _ _ _ (by rw [hd5]; norm_num)
    (by unfold gK; norm_num) (by rw [hs5]; unfold gB; norm_num), hs5]
  unfold gB gK
  norm_num

/-- C2 counterexample: at the perfect-square fixture the returned area is
exactly `5 mm²`, the code's nominal moment is `8450 N·mm` while
`Mu·1e6/φ = 8475 N·mm`; the relative deviation `25/8475 ≈ 0.3%` far
exceeds the claimed `1e-6` tolerance. -/
theorem claim_C2_counterexample :
    required_rebar_area (3051/400000) 1000 10 17 170 (9/10) = some 5 ∧
    (calculate_design_flexural_strength 5 1000 10 0 17 170 (9/10) 0.4).1 =
      8450 ∧
    (3051/400000 : ℝ) * 1e6 / (9/10) = 8475 ∧
    ¬ (|(calculate_design_flexural_strength 5 1000 10 0 17 170 (9/10)
          0.4).1 - (3051/400000 : ℝ) * 1e6 / (9/10)| ≤
        1e-6 * ((3051/400000 : ℝ) * 1e6 / (9/10))) := by
  have hMn : (calculate_design_flexural_strength 5 1000 10 0 17 170 (9/10)
      0.4).1 = 8450 := by
    simp only [calculate_design_flexural_strength]
    norm_num
  refine ⟨rra_c2_fixture, hMn, by norm_num, ?_⟩
  rw [hMn, show (8450 : ℝ) - (3051/400000 : ℝ) * 1e6 / (9/10) = -25 by
    norm_num, abs_neg, abs_of_nonneg (by norm_num : (0:ℝ) ≤ 25)]
  norm_num

/-- C2 amended: for positive inputs, whenever the discriminant is
nonnegative `required_rebar_area` returns a value; any returned value `r`
is positive and satisfies the solver's own moment-arm equation
`r·fy·(d - a/2) = Mu·1e6/φ` exactly, while the code's
`calculate_design_flexural_strength` reproduces `Mu·1e6/φ - K·r²`, which is
strictly below `Mu·1e6/φ` (so the claimed 1e-6-relative round trip fails
systematically rather than holding). -/
theorem claim_C2_amended (Mu b d fck fy phi r : ℝ) (hMu : 0 < Mu)
    (hb : 0 < b) (hd : 0 < d) (hfck : 0 < fck) (hfy : 0 < fy)
    (hphi : 0 < phi) :
    (0 ≤ gDisc Mu b d fck fy phi →
      required_rebar_area Mu b d fck fy phi ≠ none) ∧
    (required_rebar_area Mu b d fck fy phi = some r →
      0 < r ∧
      r * fy * (d - r * fy / (0.85 * fck * b) / 2) = Mu * 1e6 / phi ∧
      (calculate_design_flexural_strength r b d 0 fck fy phi 0.4).1 =
        Mu * 1e6 / phi - gK b fck fy * r ^ 2 ∧
      (calculate_design_flexural_strength r b d 0 fck fy phi 0.4).1 <
        Mu * 1e6 / phi) := by
  have hK : 0 < gK b fck fy := by
    unfold gK
    positivity
  have hB : 0 < gB d fy := by
    unfold gB
    positivity
  have hC : 0 < gC Mu phi := by
    unfold gC
    positivity
  have hgC : gC Mu phi = Mu * 1e6 / phi := rfl
  have hgDisc : gDisc Mu b d fck fy phi =
      (gB d fy) ^ 2 - 4 * gK b fck fy * gC Mu phi := rfl
  constructor
  · intro hdisc
    have hroot : Real.sqrt (gDisc Mu b d fck fy phi) < gB d fy := by
      rw [Real.sqrt_lt' hB, hgDisc]
      nlinarith
    rw [required_rebar_area_eval Mu b d fck fy phi hdisc hK hroot]
    simp
  · intro hsome
    simp only [required_rebar_area] at hsome
    split_ifs at hsome with h1 h2
    have hdisc : 0 ≤ gDisc Mu b d fck fy phi := not_lt.mp h1
    have hs2 : Real.sqrt (gDisc Mu b d fck fy phi) ^ 2 =
        gDisc Mu b d fck fy phi := Real.sq_sqrt hdisc
    have h2K : (0 : ℝ) < 2 * gK b fck fy := by linarith
    have hmin :
        (gB d fy - Real.sqrt (gDisc Mu b d fck fy phi)) /
          (2 * gK b fck fy) ≤
        (gB d fy + Real.sqrt (gDisc Mu b d fck fy phi)) /
          (2 * gK b fck fy) :=
      (div_le_div_iff_of_pos_right h2K).mpr
        (by linarith [Real.sqrt_nonneg (gDisc Mu b d fck fy phi)])
    rw [min_eq_right hmin] at h2
    rw [min_eq_right hmin, Option.some.injEq] at hsome
    subst hsome
    have hrpos : 0 <
        (gB d fy - Real.sqrt (gDisc Mu b d fck fy phi)) /
          (2 * gK b fck fy) := lt_of_not_le h2
    have hquad : gK b fck fy *
          ((gB d fy - Real.sqrt (gDisc Mu b d fck fy phi)) /
            (2 * gK b fck fy)) ^ 2 -
        gB d fy * ((gB d fy - Real.sqrt (gDisc Mu b d fck fy phi)) /
            (2 * gK b fck fy)) + gC Mu phi = 0 := by
      refine quad_root_sub _ _ _ _ hK.ne' ?_
      rw [hs2, hgDisc]
    set r := (gB d fy - Real.sqrt (gDisc Mu b d fck fy phi)) /
      (2 * gK b fck fy) with hr_def
    have harm : r * fy * (d - r * fy / (0.85 * fck * b) / 2) =
        gB d fy * r - gK b fck fy * r ^ 2 := by
      unfold gB gK
      field_simp
      ring
    have hMn : (calculate_design_flexural_strength r b d 0 fck fy phi
        0.4).1 = gB d fy * r - 2 * (gK b fck fy * r ^ 2) := by
      simp only [calculate_design_flexural_strength]
      unfold gB gK
      field_simp
      ring
    have hKr : 0 < gK b fck fy * r ^ 2 := by positivity
    refine ⟨hrpos, ?_, ?_, ?_⟩
    · rw [harm, ← hgC]
      linarith
    · rw [hMn, ← hgC]
      linarith
    · rw [hMn, ← hgC]
      linarith

/-- C2 witness: the amended theorem applied at the perfect-square fixture;
the code's nominal moment falls strictly below `Mu·1e6/φ`. -/
theorem claim_C2_amended_witness :
    (calculate_design_flexural_strength 5 1000 10 0 17 170 (9/10) 0.4).1 <
      (3051/400000 : ℝ) * 1e6 / (9/10) :=
  ((claim_C2_amended (3051/400000) 1000 10 17 170 (9/10) 5 (by norm_num)
      (by norm_num) (by norm_num) (by norm_num) (by norm_num)
      (by norm_num)).2 rra_c2_fixture).2.2.2

/-! ## Claim C3: NoSolution signalling -/

/-- C3 counterexample: at `Mu = 221/4 = 55.25 kN·m, b=1000, d=100, fck=20,
fy=400, φ_c=0.65, φ_s=0.9` the discriminant of the `utils.py` quadratic is
exactly `0` — the (double) root exists — yet `solve_rebar_area_for_flexure`
returns `None`, because its guard is `discriminant <= 0` rather than
`< 0`. -/
theorem claim_C3_counterexample :
    uDisc (221/4) 1000 100 20 400 (13/20) (9/10) = 0 ∧
    solve_rebar_area_for_flexure (221/4) 1000 100 20 400 (13/20) (9/10) =
      none := by
  have h : uDisc (221/4) 1000 100 20 400 (13/20) (9/10) = 0 := by
    unfold uDisc uA uB uC
    norm_num
  refine ⟨h, ?_⟩
  simp only [solve_rebar_area_for_flexure]
  rw [if_pos (le_of_eq h)]

/-- C3 amended: the `gptils.py` variant signals `NoSolution` **exactly**
when the discriminant is negative or the selected (smaller) root is
nonpositive (an iff); in particular it returns a value — it does not
signal `NoSolution` — whenever `Mu, φ > 0` and the discriminant is
nonnegative, *including exactly zero*, and any returned value is positive,
never negative or defaulted.  The `utils.py` variant instead signals
`NoSolution` whenever its discriminant is `≤ 0` — including exactly `0` —
while any value it does return is positive for positive inputs. -/
theorem claim_C3_amended (Mu b d fck fy phi phi_c phi_s r r' : ℝ)
    (hb : 0 < b) (hd : 0 < d) (hfck : 0 < fck) (hfy : 0 < fy)
    (hpc : 0 < phi_c) (hps : 0 < phi_s) :
    (required_rebar_area Mu b d fck fy phi = none ↔
      gDisc Mu b d fck fy phi < 0 ∨
        (gB d fy - Real.sqrt (gDisc Mu b d fck fy phi)) /
          (2 * gK b fck fy) ≤ 0) ∧
    (0 < Mu → 0 < phi → 0 ≤ gDisc Mu b d fck fy phi →
      required_rebar_area Mu b d fck fy phi ≠ none) ∧
    (required_rebar_area Mu b d fck fy phi = some r → 0 < r) ∧
    (uDisc Mu b d fck fy phi_c phi_s ≤ 0 →
      solve_rebar_area_for_flexure Mu b d fck fy phi_c phi_s = none) ∧
    (solve_rebar_area_for_flexure Mu b d fck fy phi_c phi_s = some r' →
      0 < r') := by
  have hK : 0 < gK b fck fy := by
    unfold gK
    positivity
  have h2K : (0 : ℝ) < 2 * gK b fck fy := by linarith
  have hmin :
      (gB d fy - Real.sqrt (gDisc Mu b d fck fy phi)) / (2 * gK b fck fy) ≤
      (gB d fy + Real.sqrt (gDisc Mu b d fck fy phi)) / (2 * gK b fck fy) :=
    (div_le_div_iff_of_pos_right h2K).mpr
      (by linarith [Real.sqrt_nonneg (gDisc Mu b d fck fy phi)])
  refine ⟨?_, ?_, ?_, ?_, ?_⟩
  · simp only [required_rebar_area]
    split_ifs with h1 h2
    · simp [h1]
    · rw [min_eq_right hmin] at h2
      simp [h2]
    · rw [min_eq_right hmin] at h2
      simp [h1, h2]
  · intro hMu hphi hdisc
    have hB : 0 < gB d fy := by
      unfold gB
      positivity
    have hC : 0 < gC Mu phi := by
      unfold gC
      positivity
    have hroot : Real.sqrt (gDisc Mu b d fck fy phi) < gB d fy := by
      rw [Real.sqrt_lt' hB,
        show gDisc Mu b d fck fy phi =
          (gB d fy) ^ 2 - 4 * gK b fck fy * gC Mu phi from rfl]
      nlinarith
    rw [required_rebar_area_eval Mu b d fck fy phi hdisc hK hroot]
    simp
  · intro hsome
    simp only [required_rebar_area] at hsome
    split_ifs at hsome with h1 h2
    rw [Option.some.injEq] at hsome
    subst hsome
    exact lt_of_not_le h2
  · intro h
    simp only [solve_rebar_area_for_flexure]
    rw [if_pos h]
  · intro hsome
    simp only [solve_rebar_area_for_flexure] at hsome
    split_ifs at hsome with h1
    have hA : 0 < uA b fck fy phi_c phi_s := by
      unfold uA
      positivity
    have hBneg : 0 < -uB d fy phi_s := by
      unfold uB
      simp only [neg_neg]
      positivity
    have hsq := Real.sqrt_nonneg (uDisc Mu b d fck fy phi_c phi_s)
    have hAs1 : 0 < (-uB d fy phi_s +
        Real.sqrt (uDisc Mu b d fck fy phi_c phi_s)) /
        (2 * uA b fck fy phi_c phi_s) :=
      div_pos (by linarith) (by linarith)
    rw [Option.some.injEq] at hsome
    have hle : (-uB d fy phi_s +
        Real.sqrt (uDisc Mu b d fck fy phi_c phi_s)) /
        (2 * uA b fck fy phi_c phi_s) ≤ r' := hsome ▸ le_max_left _ _
    linarith

/-- C3 witness: both `gptils.py` branches of the amended theorem at
concrete inputs — an absurdly large demand (`Mu = 10⁶ kN·m` on a
1 mm × 1 mm section, negative discriminant) is rejected as `NoSolution`,
while `Mu = 85 kN·m, b = 1000, d = 100, fck = 20, fy = 400, φ = 1`, whose
discriminant is exactly `0`, is *not* rejected. -/
theorem claim_C3_amended_witness :
    required_rebar_area 1000000 1 1 1 1 1 = none ∧
    required_rebar_area 85 1000 100 20 400 1 ≠ none := by
  constructor
  · exact (claim_C3_amended 1000000 1 1 1 1 1 1 1 0 0 (by norm_num)
      (by norm_num) (by norm_num) (by norm_num) (by norm_num)
      (by norm_num)).1.mpr (Or.inl (by unfold gDisc gK gB gC; norm_num))
  · exact (claim_C3_amended 85 1000 100 20 400 1 1 1 0 0 (by norm_num)
      (by norm_num) (by norm_num) (by norm_num) (by norm_num)
      (by norm_num)).2.1 (by norm_num) (by norm_num)
      (by unfold gDisc gK gB gC; norm_num)

/-- C10 witness: concrete section with `Vu` below `Vc` (here
`Vc = 0.53·5·1000·200·1e-3 = 530` kN against `Vu = 100` kN). -/
theorem claim_C10_simplified_shear_witness :
    (calc_shear_check 100 1000 200 25 400 0.65 0.9).1 = true ∧
    (calc_shear_check 100 1000 200 25 400 0.65 0.9).2.2 = 0 := by
  have h := claim_C10_simplified_shear 100 1000 200 25 400 0.65 0.9
    (by norm_num) (by norm_num) (by norm_num)
  refine ⟨h.1, h.2.2.1 ?_⟩
  rw [sqrt_twentyfive]
  norm_num

end
